import Mathlib

/-!
Verification of the ingestion core of the Real-Time Sports Analytics System
(`src/project_3/src`): the data processor (`process_data.py`), the persistence
layer (`db_utils.py`), the rate-limited API client (`fetch_data.py`) and the
periodic scheduler (`scheduler.py`), shallowly embedded in Lean 4.

Conventions of the embedding:
* Python dict records become Lean structures; a field that can hold `None`
  becomes an `Option`.
* Python `float` arithmetic is modelled over `ℚ`; `round(x, 4)` becomes
  round-half-to-even at 4 decimal digits (Python's rounding mode).
* The SQLite `matches` table becomes a `List MatchRow`; SQL `UPDATE ... WHERE`
  becomes a `List.map` guarded by the key, `INSERT` becomes an append, and
  `CURRENT_TIMESTAMP` becomes an explicit clock argument.
* Wall-clock time (`time.time`, `time.sleep`) is modelled by an explicit
  rational clock; `time.sleep(d)` advances it by exactly `d`, and the caller's
  own elapsed time between requests is an arbitrary rational drift.
* A Python function that may raise models its observable result as an
  `Except`/`Option` value; exceptions that a `try` swallows never appear in the
  returned value, mirroring the handlers in the source.
-/

/-- A processed match record, the output of `DataProcessor.process_match_data`
(`process_data.py`, lines 48-66): the dict handed to `insert_match` and
`generate_player_stats_from_match`. -/
structure MatchData where
  match_id : Int
  utc_date : String
  status : String
  matchday : Option Int
  stage : Option String
  competition_id : Int
  competition_name : String
  season_start_year : Option String
  home_team_id : Int
  home_team_name : String
  away_team_id : Int
  away_team_name : String
  home_score : Option Int
  away_score : Option Int
  winner : Option String
  duration : String
  venue : Option String
  deriving DecidableEq

/-- A player-stat record, the dict shape built in
`DataProcessor.generate_player_stats_from_match` and consumed by
`calculate_derived_metrics` and `insert_player_stats`. -/
structure PlayerStat where
  match_id : Int
  player_id : Option Int
  player_name : String
  team_id : Int
  team_name : String
  position : String
  minutes_played : Int
  goals : Int
  assists : Int
  shots : Int
  shots_on_target : Int
  passes : Int
  passes_completed : Int
  tackles : Int
  interceptions : Int
  fouls_committed : Int
  fouls_drawn : Int
  yellow_cards : Int
  red_cards : Int
  efficiency : ℚ
  involvement_rate : ℚ
  form_score : ℚ
  deriving DecidableEq

/-- Python's `x or 0` applied to a score that may be `None`
(`match_data.get('home_score', 0) or 0`, `process_data.py` lines 127 and 153):
`None` and `0` are falsy and yield `0`, any other int is returned itself. -/
def orZero : Option Int → Int
  | none => 0
  | some s => if s = 0 then 0 else s

/-- The `home_stat` dict literal of `generate_player_stats_from_match`
(`process_data.py`, lines 119-142). -/
def home_stat (md : MatchData) : PlayerStat :=
  { match_id := md.match_id
    player_id := none
    player_name := md.home_team_name ++ " Squad"
    team_id := md.home_team_id
    team_name := md.home_team_name
    position := "Team"
    minutes_played := 90
    goals := orZero md.home_score
    assists := 0
    shots := 0
    shots_on_target := 0
    passes := 0
    passes_completed := 0
    tackles := 0
    interceptions := 0
    fouls_committed := 0
    fouls_drawn := 0
    yellow_cards := 0
    red_cards := 0
    efficiency := 0
    involvement_rate := 0
    form_score := 0 }

/-- The `away_stat` dict literal of `generate_player_stats_from_match`
(`process_data.py`, lines 145-168). -/
def away_stat (md : MatchData) : PlayerStat :=
  { match_id := md.match_id
    player_id := none
    player_name := md.away_team_name ++ " Squad"
    team_id := md.away_team_id
    team_name := md.away_team_name
    position := "Team"
    minutes_played := 90
    goals := orZero md.away_score
    assists := 0
    shots := 0
    shots_on_target := 0
    passes := 0
    passes_completed := 0
    tackles := 0
    interceptions := 0
    fouls_committed := 0
    fouls_drawn := 0
    yellow_cards := 0
    red_cards := 0
    efficiency := 0
    involvement_rate := 0
    form_score := 0 }

/-- `DataProcessor.generate_player_stats_from_match` (`process_data.py`,
lines 98-174): when the match status is `FINISHED` it appends the home and
away aggregate rows to the (initially empty) result list, otherwise it
returns the empty list. -/
def generate_player_stats_from_match (md : MatchData) : List PlayerStat :=
  if md.status = "FINISHED" then [home_stat md, away_stat md] else []

/-- Round half to even at integer precision, the rounding mode of Python's
built-in `round`. -/
def roundHalfEven (x : ℚ) : ℤ :=
  if x - ⌊x⌋ < 1 / 2 then ⌊x⌋
  else if 1 / 2 < x - ⌊x⌋ then ⌊x⌋ + 1
  else if Even ⌊x⌋ then ⌊x⌋ else ⌊x⌋ + 1

/-- Python's `round(x, 4)`: round half to even at 4 decimal digits. -/
def round4 (x : ℚ) : ℚ := (roundHalfEven (x * 10000) : ℚ) / 10000

/-- `DataProcessor.calculate_derived_metrics` (`process_data.py`, lines
176-211): sets `efficiency` and `involvement_rate` from the guarded divisions
and resets `form_score` to 0 (the rolling form score is computed separately). -/
def calculate_derived_metrics (ps : PlayerStat) : PlayerStat :=
  let minutes := ps.minutes_played
  let goals := ps.goals
  let assists := ps.assists
  let shots := ps.shots
  let passes := ps.passes
  let efficiency : ℚ :=
    if minutes > 0 then round4 (((goals + assists : ℤ) : ℚ) / (minutes : ℚ)) else 0
  let involvement : ℚ :=
    if minutes > 0 then round4 (((shots + passes : ℤ) : ℚ) / (minutes : ℚ)) else 0
  { ps with
    efficiency := efficiency
    involvement_rate := involvement
    form_score := 0 }

/-! ## Persistence layer (`db_utils.py`) -/

/-- A stored row of the `matches` table. `updated_at` is the last-modified
marker: the `UPDATE` branch of `insert_match` sets it to `CURRENT_TIMESTAMP`
(modelled by an explicit clock value); the `INSERT` branch does not set it. -/
structure MatchRow where
  data : MatchData
  updated_at : Option Nat
  deriving DecidableEq

/-- The `UPDATE matches SET status = ..., home_score = ..., away_score = ...,
winner = ..., updated_at = CURRENT_TIMESTAMP WHERE match_id = ...` statement of
`DatabaseManager.insert_match` (`db_utils.py`, lines 121-130), applied to one
row. -/
def updateMatchRow (md : MatchData) (now : Nat) (r : MatchRow) : MatchRow :=
  { r with
    data := { r.data with
      status := md.status
      home_score := md.home_score
      away_score := md.away_score
      winner := md.winner }
    updated_at := some now }

/-- The `INSERT INTO matches (...) VALUES (...)` statement of
`DatabaseManager.insert_match` (`db_utils.py`, lines 134-147): a full row from
the incoming record; `updated_at` is not among the inserted columns. -/
def newMatchRow (md : MatchData) : MatchRow :=
  { data := md, updated_at := none }

/-- `DatabaseManager.insert_match` (`db_utils.py`, lines 101-154) acting on the
`matches` table: look the id up (`SELECT match_id FROM matches WHERE match_id =
...`); if a row exists, run the `UPDATE` (which touches every row carrying the
id); otherwise run the `INSERT`. `now` models `CURRENT_TIMESTAMP`. -/
def insert_match (md : MatchData) (now : Nat) (db : List MatchRow) : List MatchRow :=
  if db.any (fun r => decide (r.data.match_id = md.match_id)) then
    db.map (fun r => if r.data.match_id = md.match_id then updateMatchRow md now r else r)
  else
    db ++ [newMatchRow md]

/-- The rows of the `matches` table carrying a given match id. -/
def matchRows (db : List MatchRow) (id : Int) : List MatchRow :=
  db.filter (fun r => decide (r.data.match_id = id))

/-- The `matches` table invariant guaranteed by its primary key: no two rows
share a match id. -/
def uniqueMatchIds (db : List MatchRow) : Prop :=
  db.Pairwise (fun a b => a.data.match_id ≠ b.data.match_id)

instance (db : List MatchRow) : Decidable (uniqueMatchIds db) := by
  unfold uniqueMatchIds; infer_instance

/-- `DatabaseManager.insert_player_stats` (`db_utils.py`, lines 156-181) acting
on the `player_stats` table: the `if not player_stats: return 0` guard comes
before any database access, so an empty batch returns 0 and leaves the table
untouched; a non-empty batch is appended (`to_sql(..., if_exists='append')`),
which reports the number of rows written. -/
def insert_player_stats (stats : List PlayerStat) (db : List PlayerStat) :
    Nat × List PlayerStat :=
  if stats = [] then (0, db)
  else (stats.length, db ++ stats)

/-! ## Rate-limited API client (`fetch_data.py`) -/

/-- `self.request_delay = 6` (`fetch_data.py`, line 51): the minimum spacing,
in seconds, between consecutive outbound requests. -/
def request_delay : ℚ := 6

/-- The fixed cooldown of the 429 branch: `time.sleep(60)`
(`fetch_data.py`, line 91). -/
def rateLimitCooldown : ℚ := 60

/-- `FootballDataFetcher._rate_limit` (`fetch_data.py`, lines 54-64), viewed
through the clock: `last` is `self.last_request_time`, `now` is the value of
`time.time()` on entry. If less than `request_delay` has passed, sleep the
difference; the result is the clock value at which the request is issued and
recorded as the new `last_request_time`. -/
def rateLimitAt (last now : ℚ) : ℚ :=
  if now - last < request_delay then now + (request_delay - (now - last)) else now

/-- A run of consecutive requests through the rate limiter. `last` is the
recorded time of the previous issued request; each list entry is the
nonnegative clock drift (caller work) between that request and the next
`_rate_limit` call. The result lists the clock times at which the requests are
issued. -/
def runRequests (last : ℚ) : List ℚ → List ℚ
  | [] => []
  | d :: rest =>
    let u := rateLimitAt last (last + d)
    u :: runRequests u rest

/-- The outcome of one `requests.get` attempt inside `_make_request`: either an
HTTP response with a status and a body, or a raised
`requests.exceptions.RequestException` with a message. -/
inductive HttpAttempt where
  | resp (status : Nat) (body : String)
  | exn (msg : String)
  deriving DecidableEq

/-- The log records `_make_request` emits on each path (`fetch_data.py`,
lines 87, 90, 94, 97). The failure records carry the endpoint, the HTTP
status when there is one, and the message text. -/
inductive FetchLog where
  | success (endpoint : String)
  | rateLimited
  | httpError (status : Nat) (endpoint : String) (body : String)
  | requestFailed (endpoint : String) (msg : String)
  deriving DecidableEq

/-- `FootballDataFetcher._make_request` (`fetch_data.py`, lines 66-98), run
against the sequence of outcomes that successive `requests.get` attempts
produce. Result components: the returned value (`none` while the attempt list
is exhausted, i.e. the recursion is still looping; `some r` once the function
returns, `r` being the Python return value `Optional[Dict]`), the emitted log
records, and the total seconds slept in 429 cooldowns. A status of exactly 200
returns the payload; 429 sleeps the cooldown and recurses on the same
endpoint; any other status logs the error record and returns `None`; a raised
`RequestException` is caught, logged and converted to `None` — no exception
reaches the caller. -/
def makeRequest (endpoint : String) : List HttpAttempt → Option (Option String) × List FetchLog × ℚ
  | [] => (none, [], 0)
  | .exn msg :: _ => (some none, [.requestFailed endpoint msg], 0)
  | .resp status body :: rest =>
    if status = 200 then (some (some body), [.success endpoint], 0)
    else if status = 429 then
      let r := makeRequest endpoint rest
      (r.1, .rateLimited :: r.2.1, rateLimitCooldown + r.2.2)
    else (some none, [.httpError status endpoint body], 0)

/-! ## Scheduler (`scheduler.py`) -/

/-- What happens inside the body of one scheduled cycle (the work wrapped in
the `try` of `DataScheduler.fetch_and_process`, `scheduler.py` lines 56-84):
it completes having processed `n` matches, or some step (for instance the
match upsert) raises an `Exception` with a message, or a `KeyboardInterrupt`
is delivered mid-cycle. -/
inductive CycleOutcome where
  | ok (processed : Nat)
  | exc (msg : String)
  | interrupt
  deriving DecidableEq

/-- The scheduler's per-cycle log record. -/
inductive SchedLog where
  | cycleCompleted (processed : Nat)
  | cycleError (msg : String)
  deriving DecidableEq

/-- `DataScheduler.fetch_and_process` (`scheduler.py`, lines 54-86): the
`except Exception` handler catches any `Exception` raised by the cycle body,
logs it, and returns normally — so an `Exception` becomes an `.ok` log value.
A `KeyboardInterrupt` is a `BaseException`, not an `Exception`; it escapes the
handler, modelled as `.error ()`. -/
def fetch_and_process : CycleOutcome → Except Unit SchedLog
  | .ok n => .ok (.cycleCompleted n)
  | .exc m => .ok (.cycleError m)
  | .interrupt => .error ()

/-- One step of the `while True: schedule.run_pending(); time.sleep(1)` loop in
`DataScheduler.start` (`scheduler.py`, lines 111-113): either a due tick runs a
cycle with some outcome, or a `KeyboardInterrupt` arrives during the
`time.sleep(1)` wait, or the loop machinery itself raises an `Exception`
(caught by the `except Exception` of `start`). -/
inductive LoopEvent where
  | tick (c : CycleOutcome)
  | sleepInterrupt
  | loopError (msg : String)
  deriving DecidableEq

/-- The waiting loop of `DataScheduler.start`, run over a finite prefix of
events. Returns the cycle logs produced and whether the loop was left (by an
interrupt or a loop-level error, both caught by the `except` clauses wrapping
the loop); an exhausted event list means the loop is still running. -/
def runLoop : List LoopEvent → List SchedLog × Bool
  | [] => ([], false)
  | .sleepInterrupt :: _ => ([], true)
  | .loopError _ :: _ => ([], true)
  | .tick c :: rest =>
    match fetch_and_process c with
    | .ok log =>
      let r := runLoop rest
      (log :: r.1, r.2)
    | .error _ => ([], true)

/-- The observable outcome of a `DataScheduler.start` call. `exited` says the
call has ended (returned or propagated an exception); `cleanupRan` says the
`finally: self.cleanup()` block — which closes the processor's database
connection — executed. -/
structure StartResult where
  logs : List SchedLog
  exited : Bool
  cleanupRan : Bool
  deriving DecidableEq

/-- `DataScheduler.start` (`scheduler.py`, lines 94-121): it first runs
`self.fetch_and_process()` immediately (line 104) — this call is *outside* the
`try`/`finally` that begins at line 110 — then registers the periodic job and
enters the waiting loop inside the `try`. A `KeyboardInterrupt` escaping the
initial cycle therefore propagates out of `start` without reaching the
`finally`; once the loop is entered, every exit path passes through the
`finally` and runs `cleanup`. -/
def startScheduler (initial : CycleOutcome) (events : List LoopEvent) : StartResult :=
  match fetch_and_process initial with
  | .error _ => { logs := [], exited := true, cleanupRan := false }
  | .ok log =>
    let r := runLoop events
    { logs := log :: r.1, exited := r.2, cleanupRan := r.2 }

/-! ## Sample records used to instantiate the theorems -/

/-- A concrete finished match record. -/
def mdSample : MatchData :=
  { match_id := 101
    utc_date := "2024-08-17T14:00:00Z"
    status := "FINISHED"
    matchday := some 1
    stage := some "REGULAR_SEASON"
    competition_id := 2021
    competition_name := "Premier League"
    season_start_year := some "2024"
    home_team_id := 57
    home_team_name := "Arsenal FC"
    away_team_id := 61
    away_team_name := "Chelsea FC"
    home_score := some 2
    away_score := none
    winner := some "HOME_TEAM"
    duration := "REGULAR"
    venue := some "Emirates Stadium" }

/-- A concrete scheduled (not finished) match record. -/
def mdScheduled : MatchData :=
  { mdSample with status := "SCHEDULED", home_score := none, away_score := none,
                  winner := none }

/-- A concrete player-stat record with playing time. -/
def psSampleA : PlayerStat :=
  { match_id := 101
    player_id := some 7
    player_name := "Bukayo Saka"
    team_id := 57
    team_name := "Arsenal FC"
    position := "FW"
    minutes_played := 90
    goals := 2
    assists := 1
    shots := 5
    shots_on_target := 2
    passes := 40
    passes_completed := 30
    tackles := 1
    interceptions := 0
    fouls_committed := 1
    fouls_drawn := 2
    yellow_cards := 0
    red_cards := 0
    efficiency := 0
    involvement_rate := 0
    form_score := 0 }

/-- The same record with zero minutes played. -/
def psSampleB : PlayerStat := { psSampleA with minutes_played := 0 }

/-! ## Helper lemmas -/

theorem matchRows_cons (x : MatchRow) (xs : List MatchRow) (id : Int) :
    matchRows (x :: xs) id =
      if x.data.match_id = id then x :: matchRows xs id else matchRows xs id := by
  by_cases h : x.data.match_id = id <;> simp [matchRows, h]

theorem matchRows_eq_nil (db : List MatchRow) (id : Int)
    (h : ∀ r ∈ db, r.data.match_id ≠ id) : matchRows db id = [] := by
  induction db with
  | nil => rfl
  | cons x xs ih =>
    rw [matchRows_cons, if_neg (h x (List.mem_cons_self x xs))]
    exact ih fun r hr => h r (List.mem_cons_of_mem x hr)

theorem matchRows_unique (id : Int) (r0 : MatchRow) (hid : r0.data.match_id = id) :
    ∀ db : List MatchRow, uniqueMatchIds db → r0 ∈ db → matchRows db id = [r0] := by
  intro db
  induction db with
  | nil => intro _ h; simp at h
  | cons x xs ih =>
    intro hu hr0
    rw [uniqueMatchIds, List.pairwise_cons] at hu
    obtain ⟨hx, hxs⟩ := hu
    rw [matchRows_cons]
    rcases List.mem_cons.mp hr0 with rfl | hmem
    · rw [if_pos hid]
      rw [matchRows_eq_nil xs id fun r hr he => hx r hr (hid.trans he.symm)]
    · have hxid : x.data.match_id ≠ id := fun he => hx r0 hmem (he.trans hid.symm)
      rw [if_neg hxid]
      exact ih hxs hmem

theorem matchRows_sub (db : List MatchRow) (id : Int) (r : MatchRow)
    (h : r ∈ matchRows db id) : r ∈ db :=
  (List.mem_filter.mp h).1

theorem insert_match_absent (md : MatchData) (now : Nat) (db : List MatchRow)
    (h : ∀ r ∈ db, r.data.match_id ≠ md.match_id) :
    insert_match md now db = db ++ [newMatchRow md] := by
  unfold insert_match
  have ha : db.any (fun r => decide (r.data.match_id = md.match_id)) = false := by
    rw [List.any_eq_false]
    intro r hr
    simpa using h r hr
  simp [ha]

theorem insert_match_present (md : MatchData) (now : Nat) (db : List MatchRow)
    (r0 : MatchRow) (hr0 : r0 ∈ db) (hid : r0.data.match_id = md.match_id) :
    insert_match md now db =
      db.map (fun r => if r.data.match_id = md.match_id then updateMatchRow md now r else r) := by
  unfold insert_match
  have ha : db.any (fun r => decide (r.data.match_id = md.match_id)) = true := by
    rw [List.any_eq_true]
    exact ⟨r0, hr0, by simpa using hid⟩
  simp [ha]

theorem upsert_step_id (md : MatchData) (now : Nat) (r : MatchRow) :
    ((if r.data.match_id = md.match_id then updateMatchRow md now r else r)).data.match_id
      = r.data.match_id := by
  split <;> rfl

theorem matchRows_map_preserving (f : MatchRow → MatchRow)
    (hf : ∀ r, (f r).data.match_id = r.data.match_id) (id : Int) :
    ∀ db : List MatchRow, matchRows (db.map f) id = (matchRows db id).map f := by
  intro db
  induction db with
  | nil => rfl
  | cons x xs ih =>
    by_cases h : x.data.match_id = id
    · rw [List.map_cons, matchRows_cons, matchRows_cons, if_pos h,
        if_pos ((hf x).trans h), List.map_cons, ih]
    · rw [List.map_cons, matchRows_cons, matchRows_cons, if_neg h,
        if_neg fun he => h ((hf x).symm.trans he), ih]

theorem uniqueMatchIds_insert_match (md : MatchData) (now : Nat) (db : List MatchRow)
    (hu : uniqueMatchIds db) : uniqueMatchIds (insert_match md now db) := by
  by_cases hp : ∃ r0 ∈ db, r0.data.match_id = md.match_id
  · obtain ⟨r0, hr0, hid⟩ := hp
    rw [insert_match_present md now db r0 hr0 hid]
    rw [uniqueMatchIds, List.pairwise_map]
    refine hu.imp ?_
    intro a b hab
    rw [upsert_step_id, upsert_step_id]
    exact hab
  · push_neg at hp
    rw [insert_match_absent md now db hp]
    rw [uniqueMatchIds, List.pairwise_append]
    refine ⟨hu, List.pairwise_singleton _ _, ?_⟩
    intro a ha b hb
    rw [List.mem_singleton] at hb
    subst hb
    exact hp a ha

theorem matchRows_insert_match_absent (md : MatchData) (now : Nat) (db : List MatchRow)
    (h : ∀ r ∈ db, r.data.match_id ≠ md.match_id) :
    matchRows (insert_match md now db) md.match_id = [newMatchRow md] := by
  rw [insert_match_absent md now db h]
  show List.filter _ _ = _
  rw [List.filter_append]
  have h1 : matchRows db md.match_id = [] := matchRows_eq_nil db md.match_id h
  rw [show List.filter (fun r => decide (r.data.match_id = md.match_id)) db = []
      from h1]
  simp [newMatchRow]

theorem matchRows_insert_match_present (md : MatchData) (now : Nat) (db : List MatchRow)
    (hu : uniqueMatchIds db) (r0 : MatchRow) (hr0 : r0 ∈ db)
    (hid : r0.data.match_id = md.match_id) :
    matchRows (insert_match md now db) md.match_id = [updateMatchRow md now r0] := by
  rw [insert_match_present md now db r0 hr0 hid,
    matchRows_map_preserving _ (upsert_step_id md now) md.match_id db,
    matchRows_unique md.match_id r0 hid db hu hr0, List.map_singleton, if_pos hid]

theorem le_rateLimitAt (last now : ℚ) : last + request_delay ≤ rateLimitAt last now := by
  unfold rateLimitAt
  split
  · linarith
  · next h =>
    have := not_lt.mp h
    linarith

theorem runRequests_getLast_ge (ds : List ℚ) :
    ∀ last b : ℚ, (runRequests last ds).getLast? = some b →
      last + ds.length * request_delay ≤ b := by
  induction ds with
  | nil =>
    intro last b hb
    simp [runRequests] at hb
  | cons d rest ih =>
    intro last b hb
    cases rest with
    | nil =>
      simp only [runRequests, List.getLast?_singleton, Option.some.injEq] at hb
      subst hb
      have := le_rateLimitAt last (last + d)
      simp only [List.length_cons, List.length_nil]
      push_cast
      linarith
    | cons d2 rest2 =>
      simp only [runRequests] at hb
      rw [List.getLast?_cons_cons] at hb
      have h1 := ih (rateLimitAt last (last + d)) b hb
      have h2 := le_rateLimitAt last (last + d)
      simp only [List.length_cons] at h1 ⊢
      push_cast at h1 ⊢
      linarith

/-! ## Claim theorems -/

/-- C1: ingesting a match record twice through `insert_match` leaves exactly
one stored row for its match id, and that row carries the values of the second
ingestion: its mutable fields (`status`, `home_score`, `away_score`, `winner`)
equal the record's and its last-modified marker is the second call's
timestamp; when the id was absent the row is the full inserted row. -/
theorem insert_match_upsert_idempotent (md : MatchData) (t1 t2 : Nat) (db : List MatchRow)
    (hu : uniqueMatchIds db) :
    ∃ r, matchRows (insert_match md t2 (insert_match md t1 db)) md.match_id = [r] ∧
      r.data.status = md.status ∧
      r.data.home_score = md.home_score ∧
      r.data.away_score = md.away_score ∧
      r.data.winner = md.winner ∧
      r.updated_at = some t2 ∧
      ((∀ x ∈ db, x.data.match_id ≠ md.match_id) →
        r = { data := md, updated_at := some t2 }) := by
  have hu1 : uniqueMatchIds (insert_match md t1 db) :=
    uniqueMatchIds_insert_match md t1 db hu
  by_cases hp : ∃ r0 ∈ db, r0.data.match_id = md.match_id
  · obtain ⟨r0, hr0, hid⟩ := hp
    have h1 : matchRows (insert_match md t1 db) md.match_id = [updateMatchRow md t1 r0] :=
      matchRows_insert_match_present md t1 db hu r0 hr0 hid
    have hmem1 : updateMatchRow md t1 r0 ∈ insert_match md t1 db :=
      matchRows_sub _ _ _ (h1 ▸ List.mem_singleton_self _)
    have h2 := matchRows_insert_match_present md t2 (insert_match md t1 db) hu1
      (updateMatchRow md t1 r0) hmem1 hid
    refine ⟨updateMatchRow md t2 (updateMatchRow md t1 r0), h2, rfl, rfl, rfl, rfl, rfl, ?_⟩
    intro habs
    exact absurd hid (habs r0 hr0)
  · push_neg at hp
    have h1 : matchRows (insert_match md t1 db) md.match_id = [newMatchRow md] :=
      matchRows_insert_match_absent md t1 db hp
    have hmem1 : newMatchRow md ∈ insert_match md t1 db :=
      matchRows_sub _ _ _ (h1 ▸ List.mem_singleton_self _)
    have h2 := matchRows_insert_match_present md t2 (insert_match md t1 db) hu1
      (newMatchRow md) hmem1 rfl
    exact ⟨updateMatchRow md t2 (newMatchRow md), h2, rfl, rfl, rfl, rfl, rfl, fun _ => rfl⟩

/-- Witness for C1 at a concrete record and the empty table. -/
theorem insert_match_upsert_idempotent_witness :
    ∃ r, matchRows (insert_match mdSample 2 (insert_match mdSample 1 [])) mdSample.match_id
        = [r] ∧
      r.data.status = mdSample.status ∧
      r.data.home_score = mdSample.home_score ∧
      r.data.away_score = mdSample.away_score ∧
      r.data.winner = mdSample.winner ∧
      r.updated_at = some 2 ∧
      ((∀ x ∈ ([] : List MatchRow), x.data.match_id ≠ mdSample.match_id) →
        r = { data := mdSample, updated_at := some 2 }) :=
  insert_match_upsert_idempotent mdSample 1 2 [] List.Pairwise.nil

/-- C2: `calculate_derived_metrics` sets `efficiency` to
`(goals + assists) / minutes_played` and `involvement_rate` to
`(shots + passes) / minutes_played`, both rounded to 4 decimal digits, when
`minutes_played > 0`, and sets both to 0 when `minutes_played = 0`; in both
cases it returns a value, so no division-by-zero error propagates. -/
theorem calculate_derived_metrics_spec (ps : PlayerStat) :
    (ps.minutes_played > 0 →
      (calculate_derived_metrics ps).efficiency =
        round4 (((ps.goals + ps.assists : ℤ) : ℚ) / (ps.minutes_played : ℚ)) ∧
      (calculate_derived_metrics ps).involvement_rate =
        round4 (((ps.shots + ps.passes : ℤ) : ℚ) / (ps.minutes_played : ℚ))) ∧
    (ps.minutes_played = 0 →
      (calculate_derived_metrics ps).efficiency = 0 ∧
      (calculate_derived_metrics ps).involvement_rate = 0) := by
  unfold calculate_derived_metrics
  constructor
  · intro h
    simp [h]
  · intro h
    simp [h]

/-- Witness for C2 at a record with 90 minutes and at one with 0 minutes. -/
theorem calculate_derived_metrics_spec_witness :
    ((calculate_derived_metrics psSampleA).efficiency =
        round4 (((psSampleA.goals + psSampleA.assists : ℤ) : ℚ) / (psSampleA.minutes_played : ℚ)) ∧
      (calculate_derived_metrics psSampleA).involvement_rate =
        round4 (((psSampleA.shots + psSampleA.passes : ℤ) : ℚ) / (psSampleA.minutes_played : ℚ))) ∧
    ((calculate_derived_metrics psSampleB).efficiency = 0 ∧
      (calculate_derived_metrics psSampleB).involvement_rate = 0) :=
  ⟨(calculate_derived_metrics_spec psSampleA).1 (by decide),
   (calculate_derived_metrics_spec psSampleB).2 (by decide)⟩

/-- C3: for a match record with status `FINISHED`,
`generate_player_stats_from_match` returns exactly 2 aggregate rows — the home
side's and the away side's, each with a null `player_id`; for any other status
it returns 0 rows. -/
theorem generate_player_stats_finished (md : MatchData) :
    (md.status = "FINISHED" →
      (generate_player_stats_from_match md).length = 2 ∧
      ∃ h a, generate_player_stats_from_match md = [h, a] ∧
        h.player_id = none ∧ a.player_id = none ∧
        h.team_id = md.home_team_id ∧ h.team_name = md.home_team_name ∧
        a.team_id = md.away_team_id ∧ a.team_name = md.away_team_name) ∧
    (md.status ≠ "FINISHED" → generate_player_stats_from_match md = []) := by
  constructor
  · intro h
    refine ⟨by simp [generate_player_stats_from_match, h],
      home_stat md, away_stat md, by simp [generate_player_stats_from_match, h],
      rfl, rfl, rfl, rfl, rfl, rfl⟩
  · intro h
    simp [generate_player_stats_from_match, h]

/-- Witness for C3 at a finished and a scheduled match record. -/
theorem generate_player_stats_finished_witness :
    ((generate_player_stats_from_match mdSample).length = 2 ∧
      ∃ h a, generate_player_stats_from_match mdSample = [h, a] ∧
        h.player_id = none ∧ a.player_id = none ∧
        h.team_id = mdSample.home_team_id ∧ h.team_name = mdSample.home_team_name ∧
        a.team_id = mdSample.away_team_id ∧ a.team_name = mdSample.away_team_name) ∧
    generate_player_stats_from_match mdScheduled = [] :=
  ⟨(generate_player_stats_finished mdSample).1 rfl,
   (generate_player_stats_finished mdScheduled).2 (by decide)⟩

/-- C9: `insert_player_stats` applied to the empty batch returns 0 and leaves
the `player_stats` table exactly as it was — a no-op, not an error (the guard
runs before any database access, so nothing is raised). -/
theorem insert_player_stats_empty (db : List PlayerStat) :
    insert_player_stats [] db = (0, db) := by
  simp [insert_player_stats]

/-- C10: for a `FINISHED` match record, each emitted aggregate row coerces a
null final score to `goals = 0` (the `or 0` coercion, never a stored null),
and every emitted row has `minutes_played = 90`. -/
theorem generate_player_stats_null_score (md : MatchData) (hf : md.status = "FINISHED") :
    ∃ h a, generate_player_stats_from_match md = [h, a] ∧
      (md.home_score = none → h.goals = 0) ∧
      (md.away_score = none → a.goals = 0) ∧
      h.goals = orZero md.home_score ∧ a.goals = orZero md.away_score ∧
      h.minutes_played = 90 ∧ a.minutes_played = 90 := by
  refine ⟨home_stat md, away_stat md,
    by simp [generate_player_stats_from_match, hf], ?_, ?_, rfl, rfl, rfl, rfl⟩
  · intro h0
    simp [home_stat, orZero, h0]
  · intro h0
    simp [away_stat, orZero, h0]

/-- Witness for C10 at a finished match whose away score is null. -/
theorem generate_player_stats_null_score_witness :
    ∃ h a, generate_player_stats_from_match mdSample = [h, a] ∧
      (mdSample.home_score = none → h.goals = 0) ∧
      (mdSample.away_score = none → a.goals = 0) ∧
      h.goals = orZero mdSample.home_score ∧ a.goals = orZero mdSample.away_score ∧
      h.minutes_played = 90 ∧ a.minutes_played = 90 :=
  generate_player_stats_null_score mdSample rfl

/-- C4: a request answered with a non-2xx status other than 429, or failing
with a network-level exception, makes `_make_request` return its failure value
(`None`) together with a log record carrying the endpoint, the status when
there is one, and the message; the value is returned, not raised — the caught
`RequestException` never reaches the caller. -/
theorem make_request_failure_value (endpoint body msg : String) (status : Nat)
    (rest rest2 : List HttpAttempt)
    (h2xx : ¬(200 ≤ status ∧ status < 300)) (h429 : status ≠ 429) :
    makeRequest endpoint (.resp status body :: rest) =
      (some none, [.httpError status endpoint body], 0) ∧
    makeRequest endpoint (.exn msg :: rest2) =
      (some none, [.requestFailed endpoint msg], 0) := by
  have h200 : status ≠ 200 := by
    rintro rfl
    exact h2xx ⟨le_refl _, by norm_num⟩
  constructor
  · simp [makeRequest, h200, h429]
  · simp [makeRequest]

/-- Witness for C4 at a 500 response and a network exception. -/
theorem make_request_failure_value_witness :
    makeRequest "matches" [.resp 500 "server error"] =
      (some none, [.httpError 500 "matches" "server error"], 0) ∧
    makeRequest "matches" [.exn "connection timed out"] =
      (some none, [.requestFailed "matches" "connection timed out"], 0) :=
  make_request_failure_value "matches" "server error" "connection timed out" 500 [] []
    (by decide) (by decide)

/-- C5: on HTTP 429 the client sleeps a fixed 60-second cooldown — strictly
longer than the 6-second normal spacing — and retries the same request; a 429
followed by a 200 yields exactly one successful payload with total sleep equal
to (hence at least) the cooldown; and retries are uncapped: any number k of
consecutive 429s followed by a 200 still ends in the one successful payload,
after k cooldown sleeps. -/
theorem make_request_429_cooldown_retry :
    request_delay < rateLimitCooldown ∧
    (∀ endpoint b body rest,
      makeRequest endpoint (.resp 429 b :: .resp 200 body :: rest) =
        (some (some body), [.rateLimited, .success endpoint], rateLimitCooldown)) ∧
    (∀ endpoint b body k,
      makeRequest endpoint (List.replicate k (.resp 429 b) ++ [.resp 200 body]) =
        (some (some body), List.replicate k .rateLimited ++ [.success endpoint],
          (k : ℚ) * rateLimitCooldown)) := by
  refine ⟨by norm_num [request_delay, rateLimitCooldown], ?_, ?_⟩
  · intro endpoint b body rest
    simp [makeRequest]
  · intro endpoint b body k
    induction k with
    | zero => simp [makeRequest]
    | succ n ih =>
      rw [List.replicate_succ, List.cons_append]
      simp only [makeRequest, ih, List.replicate_succ, List.cons_append]
      norm_num
      ring

/-- C6: issuing N ≥ 1 consecutive requests through the rate limiter takes
wall-clock time at least (N-1) × `request_delay` between the first and the
last issued request: before each call the client sleeps to pad the gap since
the recorded time of the previous issued request. -/
theorem rate_limit_spacing (t0 : ℚ) (ds : List ℚ) (a b : ℚ)
    (ha : (runRequests t0 ds).head? = some a)
    (hb : (runRequests t0 ds).getLast? = some b) :
    ((ds.length : ℚ) - 1) * request_delay ≤ b - a := by
  cases ds with
  | nil => simp [runRequests] at ha
  | cons d rest =>
    simp only [runRequests, List.head?_cons, Option.some.injEq] at ha
    cases rest with
    | nil =>
      simp only [runRequests, List.getLast?_singleton, Option.some.injEq] at hb
      subst ha
      subst hb
      simp
    | cons d2 rest2 =>
      simp only [runRequests] at hb
      rw [List.getLast?_cons_cons] at hb
      have h1 := runRequests_getLast_ge (d2 :: rest2) (rateLimitAt t0 (t0 + d)) b hb
      subst ha
      simp only [List.length_cons] at h1 ⊢
      push_cast at h1 ⊢
      linarith

/-- Witness for C6: two requests, the second issued 6 seconds after the
first. -/
theorem rate_limit_spacing_witness :
    ((([5, 0] : List ℚ).length : ℚ) - 1) * request_delay ≤ (12 : ℚ) - 6 :=
  rate_limit_spacing 0 [5, 0] 6 12 (by norm_num [runRequests, rateLimitAt, request_delay])
    (by norm_num [runRequests, rateLimitAt, request_delay])

/-- C7: an `Exception` raised inside a scheduled cycle — such as a throwing
match upsert — is caught by `fetch_and_process`, converted into an error log
record rather than a raise, and the waiting loop goes on to run the remaining
ticks exactly as it would have: the failing cycle removes nothing from the
schedule. -/
theorem fetch_and_process_fault_isolation (m : String) (rest : List LoopEvent) :
    fetch_and_process (.exc m) = .ok (.cycleError m) ∧
    runLoop (.tick (.exc m) :: rest) =
      (SchedLog.cycleError m :: (runLoop rest).1, (runLoop rest).2) := by
  exact ⟨rfl, rfl⟩

/-- C8 counterexample: a `KeyboardInterrupt` delivered during the initial
startup cycle — which `start` runs before entering its `try`/`finally` — makes
`start` exit without running `cleanup`, so the database connection is not
released on this exit path. -/
theorem start_cleanup_counterexample :
    (startScheduler .interrupt []).exited = true ∧
    (startScheduler .interrupt []).cleanupRan = false :=
  ⟨rfl, rfl⟩

/-- C8 (amended): once the waiting loop has been entered — i.e. the startup
cycle was not itself interrupted — every exit of `start` (interrupt during the
sleep, interrupt mid-cycle, loop-level error) runs the `finally` cleanup and
releases the database connection. -/
theorem start_cleanup_on_loop_exit (initial : CycleOutcome) (events : List LoopEvent)
    (hi : initial ≠ CycleOutcome.interrupt)
    (hx : (startScheduler initial events).exited = true) :
    (startScheduler initial events).cleanupRan = true := by
  cases initial with
  | ok n => simpa [startScheduler, fetch_and_process] using hx
  | exc m => simpa [startScheduler, fetch_and_process] using hx
  | interrupt => exact absurd rfl hi

/-- Witness for the amended C8: an interrupt during the waiting sleep exits
with cleanup run. -/
theorem start_cleanup_on_loop_exit_witness :
    (startScheduler (.ok 0) [.sleepInterrupt]).cleanupRan = true :=
  start_cleanup_on_loop_exit (.ok 0) [.sleepInterrupt] (by decide) rfl
